import Mathlib

/-!
Shallow embedding of the OpenWhispr activation controller (the push-to-talk
key handlers registered in main.js) and of the audio ducking subsystem
(src/helpers/audioDuckingManager.js), with theorems checking the
natural-language specification against this code.
-/

namespace OpenWhispr

/-! ### Activation controller: data model

The controller state is held in module-level variables in main.js:
`winKeyDownTime`/`winKeyIsRecording` for the Windows low-level key listener,
and `globeKeyDownTime`/`globeKeyIsRecording` for the macOS Globe key listener.
A timestamp of 0 plays the role of "no press tracked" (the code tests
`keyDownTime > 0`); `Date.now()` is always positive.
-/

/-- The user's activation mode setting (`getActivationMode()`). -/
inductive ActivationMode
  | push
  | tap
deriving DecidableEq, Repr

/-- Commands the key handlers emit towards the dictation surface:
`showDictationPanel`, `hideDictationPanel`, `sendStartDictation`,
`sendStopDictation`, the `toggle-dictation` message, and the
`globe-key-pressed` forward to the control panel (hotkey capture UI). -/
inductive Cmd
  | showPanel
  | hidePanel
  | startDictation
  | stopDictation
  | toggleDictation
  | captureForward
deriving DecidableEq, Repr

/-- Module-level state of the Windows push-to-talk handlers in main.js. -/
structure WinState where
  winKeyDownTime : Nat
  winKeyIsRecording : Bool
deriving DecidableEq, Repr

/-- Module-level state of the macOS Globe key handlers in main.js. -/
structure GlobeState where
  globeKeyDownTime : Nat
  globeKeyIsRecording : Bool
deriving DecidableEq, Repr

/-- `WIN_MIN_HOLD_DURATION_MS` / `MIN_HOLD_DURATION_MS` in main.js. -/
def MIN_HOLD_DURATION_MS : Nat := 150

/-- `windowsKeyManager.on("key-down")` handler. `mainLive` is
`isLiveWindow(windowManager.mainWindow)`; `now` is `Date.now()`. Returns the
new state, the commands emitted, and the number of hold timers scheduled by
this invocation (the handler calls `setTimeout` once in push mode). -/
def winKeyDown (mainLive : Bool) (mode : ActivationMode) (now : Nat) (s : WinState) :
    WinState × List Cmd × Nat :=
  if mainLive then
    match mode with
    | .push => (⟨now, false⟩, [Cmd.showPanel], 1)
    | .tap => (s, [], 0)
  else (s, [], 0)

/-- Body of the `setTimeout` callback scheduled by the Windows key-down
handler: start recording only if the key is still held and recording has not
already started. -/
def winHoldTimer (s : WinState) : WinState × List Cmd :=
  if 0 < s.winKeyDownTime ∧ s.winKeyIsRecording = false then
    ({ s with winKeyIsRecording := true }, [Cmd.startDictation])
  else (s, [])

/-- `windowsKeyManager.on("key-up")` handler. -/
def winKeyUp (mainLive : Bool) (mode : ActivationMode) (s : WinState) :
    WinState × List Cmd :=
  if mainLive then
    match mode with
    | .push =>
      if s.winKeyIsRecording then (⟨0, false⟩, [Cmd.stopDictation])
      else (⟨0, false⟩, [Cmd.hidePanel])
    | .tap => (s, [])
  else (s, [])

/-- `globeKeyManager.on("globe-down")` handler. `controlLive` is
`isLiveWindow(windowManager.controlPanelWindow)` (the unconditional
`globe-key-pressed` forward), `hotkey` is `hotkeyManager.getCurrentHotkey()`. -/
def globeDown (controlLive mainLive : Bool) (hotkey : String) (mode : ActivationMode)
    (now : Nat) (s : GlobeState) : GlobeState × List Cmd × Nat :=
  let fwd := if controlLive then [Cmd.captureForward] else []
  if hotkey = "GLOBE" then
    if mainLive then
      match mode with
      | .push => (⟨now, false⟩, fwd ++ [Cmd.showPanel], 1)
      | .tap => (s, fwd ++ [Cmd.showPanel, Cmd.toggleDictation], 0)
    else (s, fwd, 0)
  else (s, fwd, 0)

/-- Body of the `setTimeout` callback scheduled by the Globe key-down
handler. -/
def globeHoldTimer (s : GlobeState) : GlobeState × List Cmd :=
  if 0 < s.globeKeyDownTime ∧ s.globeKeyIsRecording = false then
    ({ s with globeKeyIsRecording := true }, [Cmd.startDictation])
  else (s, [])

/-- `globeKeyManager.on("globe-up")` handler. On a release before recording
started the handler does nothing beyond clearing the timestamp (the source
comment: a tap is ignored in push mode); in particular it never hides the
panel. -/
def globeUp (hotkey : String) (mode : ActivationMode) (s : GlobeState) :
    GlobeState × List Cmd :=
  if hotkey = "GLOBE" then
    match mode with
    | .push =>
      if s.globeKeyIsRecording then (⟨0, false⟩, [Cmd.stopDictation])
      else (⟨0, false⟩, [])
    | .tap => (s, [])
  else (s, [])

/-- One occurrence on the event loop: a key-down at clock time `t`, a key-up,
or the firing of a previously scheduled hold timer (neither of the latter
reads the clock). -/
inductive KeyOcc
  | down (t : Nat)
  | up
  | timerFires
deriving DecidableEq, Repr

/-- Run a sequence of occurrences through the Windows handlers, collecting the
emitted commands (in order) and the total number of hold timers scheduled. -/
def runWin (mainLive : Bool) (mode : ActivationMode) :
    List KeyOcc → WinState → WinState × List Cmd × Nat
  | [], s => (s, [], 0)
  | KeyOcc.down t :: rest, s =>
      let r := winKeyDown mainLive mode t s
      let r2 := runWin mainLive mode rest r.1
      (r2.1, r.2.1 ++ r2.2.1, r.2.2 + r2.2.2)
  | KeyOcc.up :: rest, s =>
      let r := winKeyUp mainLive mode s
      let r2 := runWin mainLive mode rest r.1
      (r2.1, r.2 ++ r2.2.1, r2.2.2)
  | KeyOcc.timerFires :: rest, s =>
      let r := winHoldTimer s
      let r2 := runWin mainLive mode rest r.1
      (r2.1, r.2 ++ r2.2.1, r2.2.2)

/-- Run a sequence of occurrences through the Globe handlers. -/
def runGlobe (controlLive mainLive : Bool) (hotkey : String) (mode : ActivationMode) :
    List KeyOcc → GlobeState → GlobeState × List Cmd × Nat
  | [], s => (s, [], 0)
  | KeyOcc.down t :: rest, s =>
      let r := globeDown controlLive mainLive hotkey mode t s
      let r2 := runGlobe controlLive mainLive hotkey mode rest r.1
      (r2.1, r.2.1 ++ r2.2.1, r.2.2 + r2.2.2)
  | KeyOcc.up :: rest, s =>
      let r := globeUp hotkey mode s
      let r2 := runGlobe controlLive mainLive hotkey mode rest r.1
      (r2.1, r.2 ++ r2.2.1, r2.2.2)
  | KeyOcc.timerFires :: rest, s =>
      let r := globeHoldTimer s
      let r2 := runGlobe controlLive mainLive hotkey mode rest r.1
      (r2.1, r.2 ++ r2.2.1, r2.2.2)

/-- Event-loop schedule of a single push-mode key-down/key-up pair: the down
at `tDown` schedules a hold timer due at `tDown + threshold`; occurrences are
ordered by time, the timer firing before the key-up when the key is held
through the threshold (`tDown + threshold ≤ tUp`) and after it otherwise. -/
def pushPairOccs (threshold tDown tUp : Nat) : List KeyOcc :=
  if tDown + threshold ≤ tUp then [KeyOcc.down tDown, KeyOcc.timerFires, KeyOcc.up]
  else [KeyOcc.down tDown, KeyOcc.up, KeyOcc.timerFires]

/-! ### Audio Ducking Subsystem (src/helpers/audioDuckingManager.js)

The manager's mutable fields are modelled by `DuckState`; the environment it
probes (platform, presence of the native ducker binary, what each media
player's AppleScript probe reports) by `DuckEnv`. The asynchronous run of the
native helper process is abstracted by a `NativeOutcome`: which of the
mutually exclusive resolution paths of the `startNativeDucking` promise
occurs (`DUCKING_STARTED` seen on stdout, the 3000 ms timeout, a spawn
`error` event, or process `exit` before confirmation). -/

/-- Result of the AppleScript probe of one media player, folding in whether a
subsequent pause command would error: the check script errors; the app is not
running; it is running but not playing; it is playing and the pause command
succeeds; it is playing and the pause command errors. -/
inductive PlayerProbe
  | checkError
  | notRunning
  | notPlaying
  | playingPauseOk
  | playingPauseErr
deriving DecidableEq, Repr

/-- Read-only environment of the ducking manager. -/
structure DuckEnv where
  platform : String
  binaryExists : Bool
  musicProbe : PlayerProbe
  spotifyProbe : PlayerProbe
deriving DecidableEq, Repr

/-- Mutable fields of `AudioDuckingManager`. `duckerProcess` records whether a
helper process handle is held (non-null); `savedMusic`/`savedSpotify` are the
two entries of `savedVolumes` (JS `null` or the string `"was_playing"`). -/
structure DuckState where
  duckerProcess : Bool
  isActive : Bool
  savedMusic : Option String
  savedSpotify : Option String
  duckLevel : String
  useAdvancedDucking : Bool
  fallbackMode : Bool
deriving DecidableEq, Repr

/-- The constructor state of `AudioDuckingManager`. -/
def initDuckState : DuckState :=
  { duckerProcess := false
    isActive := false
    savedMusic := none
    savedSpotify := none
    duckLevel := "default"
    useAdvancedDucking := false
    fallbackMode := false }

/-- `isNativeDuckingAvailable()`: macOS only, and the binary must resolve. -/
def isNativeDuckingAvailable (env : DuckEnv) : Bool :=
  if env.platform ≠ "darwin" then false
  else env.binaryExists

/-- `getStatus()`. The returned JS object literal is modelled as its ordered
field list, so that the set of field names is part of the result; the state
is returned unchanged (second component) since the method only reads. -/
def getStatus (env : DuckEnv) (s : DuckState) : List (String × Bool) × DuckState :=
  ([("isActive", s.isActive),
    ("fallbackMode", s.fallbackMode),
    ("nativeAvailable", isNativeDuckingAvailable env)], s)

/-- `pauseMusicApp(appName, key)`: resolves `false` on a check-script error,
when the app is not running or not playing, and on a pause error; resolves
`true` and records `savedVolumes[key] = "was_playing"` only when the app was
playing and the pause succeeded. It only ever resolves — it never rejects. -/
def pauseMusicApp (probe : PlayerProbe) (saved : Option String) :
    Bool × Option String :=
  match probe with
  | .checkError => (false, saved)
  | .notRunning => (false, saved)
  | .notPlaying => (false, saved)
  | .playingPauseErr => (false, saved)
  | .playingPauseOk => (true, some "was_playing")

/-- `startAppleScriptDucking()`: refuses off macOS; otherwise sets
`fallbackMode`, tries to pause Music and Spotify, and marks the manager
active (`anyPaused || true` in the source — active even if nothing was
playing). `Promise.all` cannot reject because `pauseMusicApp` never rejects,
so the catch branch returning `false` is unreachable on macOS. -/
def startAppleScriptDucking (env : DuckEnv) (s : DuckState) : Bool × DuckState :=
  if env.platform ≠ "darwin" then (false, s)
  else
    let s1 := { s with fallbackMode := true }
    let pMusic := pauseMusicApp env.musicProbe s1.savedMusic
    let pSpotify := pauseMusicApp env.spotifyProbe s1.savedSpotify
    let anyPaused := pMusic.1 || pSpotify.1
    (true, { s1 with savedMusic := pMusic.2, savedSpotify := pSpotify.2,
                     isActive := anyPaused || true })

/-- Which resolution path the `startNativeDucking` promise takes. -/
inductive NativeOutcome
  | confirmed
  | timeout
  | spawnError
  | exitedBeforeConfirm
deriving DecidableEq, Repr

/-- `startNativeDucking(level, advanced)`: `false` immediately when the binary
is missing; otherwise the process is spawned and the promise resolves `true`
(with `isActive`, `fallbackMode := false`, process handle kept) only on a
`DUCKING_STARTED` line; the spawn-error and timeout paths drop the handle and
resolve `false`; the exit-before-confirmation path additionally clears
`isActive`. `level`/`advanced` are only forwarded as helper arguments. -/
def startNativeDucking (env : DuckEnv) (outcome : NativeOutcome)
    (level : String) (advanced : Bool) (s : DuckState) : Bool × DuckState :=
  if env.binaryExists = false then (false, s)
  else
    match outcome with
    | .confirmed =>
        (true, { s with duckerProcess := true, isActive := true, fallbackMode := false })
    | .spawnError => (false, { s with duckerProcess := false })
    | .exitedBeforeConfirm =>
        (false, { s with duckerProcess := false, isActive := false })
    | .timeout => (false, { s with duckerProcess := false })

/-- `startDucking(options)` argument object. -/
structure DuckOptions where
  level : Option String
  advanced : Option Bool
deriving DecidableEq, Repr

/-- `startDucking(options)`: no-op success when already active; on macOS try
native ducking first and fall back to AppleScript ducking when it fails; off
macOS go (vacuously) straight to the AppleScript path. -/
def startDucking (env : DuckEnv) (outcome : NativeOutcome) (opts : DuckOptions)
    (s : DuckState) : Bool × DuckState :=
  if s.isActive then (true, s)
  else
    let level := opts.level.getD s.duckLevel
    let advanced := opts.advanced.getD s.useAdvancedDucking
    if env.platform = "darwin" then
      let native := startNativeDucking env outcome level advanced s
      if native.1 then (true, native.2)
      else startAppleScriptDucking env native.2
    else startAppleScriptDucking env s

/-- `resumeMusicApp(appName, key)`: returns without issuing any command when
`savedVolumes[key] !== "was_playing"`; otherwise issues the play script (the
Bool result records that a resume command was sent) and clears the entry
whether or not the script errored (`execErr`). -/
def resumeMusicApp (saved : Option String) (execErr : Bool) :
    Bool × Option String :=
  if saved ≠ some "was_playing" then (false, saved)
  else (true, none)

/-- Observable effects of one `stopDucking` call: whether a resume command
was sent to Music / to Spotify, and whether a kill signal was sent to the
native helper. -/
structure StopEffects where
  musicResume : Bool
  spotifyResume : Bool
  killSignal : Bool
deriving DecidableEq, Repr

/-- `stopDucking()`: no-op when inactive; in fallback mode resume the saved
players (`musicErr`/`spotifyErr` are the osascript errors of the two resume
scripts, which are logged and swallowed); otherwise `stopNativeDucking()`
(kill signal iff a process handle is held). Either way `isActive` and
`fallbackMode` are cleared. -/
def stopDucking (musicErr spotifyErr : Bool) (s : DuckState) :
    StopEffects × DuckState :=
  if s.isActive = false then (⟨false, false, false⟩, s)
  else if s.fallbackMode then
    let rMusic := resumeMusicApp s.savedMusic musicErr
    let rSpotify := resumeMusicApp s.savedSpotify spotifyErr
    (⟨rMusic.1, rSpotify.1, false⟩,
      { s with savedMusic := rMusic.2, savedSpotify := rSpotify.2,
               isActive := false, fallbackMode := false })
  else
    (⟨false, false, s.duckerProcess⟩,
      { s with duckerProcess := false, isActive := false, fallbackMode := false })

/-- `configure(options)`: update defaults for future `startDucking` calls. -/
def configure (opts : DuckOptions) (s : DuckState) : DuckState :=
  let s1 := match opts.level with
    | some l => { s with duckLevel := l }
    | none => s
  match opts.advanced with
  | some a => { s1 with useAdvancedDucking := a }
  | none => s1

/-- `cleanup()` on `AudioDuckingManager` (documented "Cleanup on app quit"):
just calls `stopDucking()`. -/
def admCleanup (musicErr spotifyErr : Bool) (s : DuckState) :
    StopEffects × DuckState :=
  stopDucking musicErr spotifyErr s

/-! ### App teardown (main.js `app.on("will-quit")`) -/

/-- State touched by the `will-quit` handler. -/
structure AppTeardownState where
  hotkeysRegistered : Bool
  globeListenerRunning : Bool
  windowsListenerRunning : Bool
  ducking : DuckState
deriving DecidableEq, Repr

/-- The `will-quit` handler in main.js: unregisters all hotkeys, stops the
Globe and Windows key-listener helpers, cleans up the updater and stops the
whisper/parakeet/llama servers. It contains no call into
`audioDuckingManager` (neither `cleanup()` nor `stopDucking()`), so the
ducking state is carried over untouched. -/
def willQuit (a : AppTeardownState) : AppTeardownState :=
  { a with hotkeysRegistered := false,
           globeListenerRunning := false,
           windowsListenerRunning := false }

/-! ### Theorems for the activation-controller claims -/

/-- C1 (counterexample): the claim says a short tap in push mode emits exactly
one hide-panel on any adapter source; on the Globe adapter a pair pressed at
1000 ms and released at 1050 ms (before the 150 ms threshold) emits zero
hide-panel commands, refuting the claim. -/
theorem c1_globe_tap_no_hide_counterexample :
    ((runGlobe false true "GLOBE" ActivationMode.push
        (pushPairOccs MIN_HOLD_DURATION_MS 1000 1050) ⟨0, false⟩).2.1).count
      Cmd.hidePanel ≠ 1 := by
  decide

/-- C1 (amended): for a push-mode key-down/key-up pair released before the
hold threshold, zero start-dictation and zero stop-dictation commands are
emitted; the Windows adapter's key-up emits exactly one hide-panel, while the
Globe adapter's key-up emits nothing at all (the panel is left shown). -/
theorem c1_short_tap (tDown tUp : Nat) (hpos : 0 < tDown) (hord : tDown ≤ tUp)
    (hshort : tUp < tDown + MIN_HOLD_DURATION_MS) :
    (runWin true ActivationMode.push
        (pushPairOccs MIN_HOLD_DURATION_MS tDown tUp) ⟨0, false⟩).2.1
      = [Cmd.showPanel, Cmd.hidePanel]
    ∧ (runGlobe false true "GLOBE" ActivationMode.push
        (pushPairOccs MIN_HOLD_DURATION_MS tDown tUp) ⟨0, false⟩).2.1
      = [Cmd.showPanel] := by
  have hocc : pushPairOccs MIN_HOLD_DURATION_MS tDown tUp
      = [KeyOcc.down tDown, KeyOcc.up, KeyOcc.timerFires] := by
    unfold pushPairOccs
    rw [if_neg (by omega)]
  constructor <;>
    simp [hocc, runWin, runGlobe, winKeyDown, winKeyUp, winHoldTimer,
      globeDown, globeUp, globeHoldTimer]

/-- C1 (witness): the short-tap theorem applied at a pair pressed at 1000 ms
and released at 1050 ms. -/
theorem c1_short_tap_witness :
    (0 < 1000 ∧ 1000 ≤ 1050 ∧ 1050 < 1000 + MIN_HOLD_DURATION_MS)
    ∧ ((runWin true ActivationMode.push
          (pushPairOccs MIN_HOLD_DURATION_MS 1000 1050) ⟨0, false⟩).2.1
        = [Cmd.showPanel, Cmd.hidePanel]
      ∧ (runGlobe false true "GLOBE" ActivationMode.push
          (pushPairOccs MIN_HOLD_DURATION_MS 1000 1050) ⟨0, false⟩).2.1
        = [Cmd.showPanel]) :=
  ⟨by decide, c1_short_tap 1000 1050 (by decide) (by decide) (by decide)⟩

/-- C2 (counterexample): the claim says a key-down arriving while a session is
live is ignored, neither resetting the session state nor starting a second
hold timer; on the Windows handler, a key-down at 200 ms while the state
records a live press from 100 ms does not leave the state unchanged with zero
timers scheduled. -/
theorem c2_keydown_counterexample :
    ¬ ((winKeyDown true ActivationMode.push 200 ⟨100, false⟩).1
         = (⟨100, false⟩ : WinState)
       ∧ (winKeyDown true ActivationMode.push 200 ⟨100, false⟩).2.2 = 0) := by
  decide

/-- C2 (amended): the push-mode key-down handlers do not debounce: whatever
the current session state, a key-down overwrites the pressed-at timestamp,
clears the recording flag, shows the panel again, and schedules one more hold
timer (on both the Windows and the Globe adapter); the at-most-one-session
invariant therefore rests on the adapters never delivering two downs without
an intervening up. -/
theorem c2_keydown_not_debounced (t : Nat) (s : WinState) (g : GlobeState) :
    winKeyDown true ActivationMode.push t s = (⟨t, false⟩, [Cmd.showPanel], 1)
    ∧ globeDown false true "GLOBE" ActivationMode.push t g
        = (⟨t, false⟩, [Cmd.showPanel], 1) := by
  constructor <;> simp [winKeyDown, globeDown]

/-- C4: a push-mode key-down/key-up pair held through the 150 ms threshold
(the hold timer fires with the key still down) emits exactly one
start-dictation and exactly one stop-dictation, the start preceding the stop,
on the Windows adapter and on the Globe adapter alike: the full command
streams are [show-panel, start-dictation, stop-dictation]. -/
theorem c4_push_hold (tDown tUp : Nat) (hpos : 0 < tDown)
    (hhold : tDown + MIN_HOLD_DURATION_MS ≤ tUp) :
    (runWin true ActivationMode.push
        (pushPairOccs MIN_HOLD_DURATION_MS tDown tUp) ⟨0, false⟩).2.1
      = [Cmd.showPanel, Cmd.startDictation, Cmd.stopDictation]
    ∧ (runGlobe false true "GLOBE" ActivationMode.push
        (pushPairOccs MIN_HOLD_DURATION_MS tDown tUp) ⟨0, false⟩).2.1
      = [Cmd.showPanel, Cmd.startDictation, Cmd.stopDictation] := by
  have hocc : pushPairOccs MIN_HOLD_DURATION_MS tDown tUp
      = [KeyOcc.down tDown, KeyOcc.timerFires, KeyOcc.up] := by
    unfold pushPairOccs
    rw [if_pos hhold]
  constructor <;>
    simp [hocc, runWin, runGlobe, winKeyDown, winKeyUp, winHoldTimer,
      globeDown, globeUp, globeHoldTimer, hpos]

/-- C4 (witness): the hold theorem applied at a pair pressed at 1000 ms and
released at 1300 ms. -/
theorem c4_push_hold_witness :
    (0 < 1000 ∧ 1000 + MIN_HOLD_DURATION_MS ≤ 1300)
    ∧ ((runWin true ActivationMode.push
          (pushPairOccs MIN_HOLD_DURATION_MS 1000 1300) ⟨0, false⟩).2.1
        = [Cmd.showPanel, Cmd.startDictation, Cmd.stopDictation]
      ∧ (runGlobe false true "GLOBE" ActivationMode.push
          (pushPairOccs MIN_HOLD_DURATION_MS 1000 1300) ⟨0, false⟩).2.1
        = [Cmd.showPanel, Cmd.startDictation, Cmd.stopDictation]) :=
  ⟨by decide, c4_push_hold 1000 1300 (by decide) (by decide)⟩

/-! ### Theorems for the teardown and ducking claims -/

/-- An active fallback-mode ducking state, for exercising the teardown path. -/
def c3ActiveDucking : DuckState :=
  { initDuckState with isActive := true, fallbackMode := true,
                       savedMusic := some "was_playing" }

/-- C3: at a teardown fired while ducking is active in fallback mode, the
will-quit handler stops both key-listener helpers but carries the ducking
state over completely untouched — `stopDucking()` is never attempted, so
DuckingState does not end inactive as the claim (and the doc comment of
`AudioDuckingManager.cleanup`) requires. -/
theorem c3_will_quit_leaves_ducking_active :
    (willQuit ⟨true, true, true, c3ActiveDucking⟩).globeListenerRunning = false
    ∧ (willQuit ⟨true, true, true, c3ActiveDucking⟩).windowsListenerRunning = false
    ∧ (willQuit ⟨true, true, true, c3ActiveDucking⟩).ducking = c3ActiveDucking
    ∧ (willQuit ⟨true, true, true, c3ActiveDucking⟩).ducking.isActive = true := by
  refine ⟨rfl, rfl, rfl, rfl⟩

/-- C5: when the state is inactive, the platform is macOS, the native ducker
binary is present, and the native attempt fails (timeout, spawn error, or exit
before confirmation — anything but a confirmed start), `startDucking` reports
success via the AppleScript fallback: the session ends active in fallback
mode, a playing player whose pause succeeds is recorded as paused, and
`getStatus()` reports fallback mode. -/
theorem c5_native_failure_falls_back (env : DuckEnv) (outcome : NativeOutcome)
    (opts : DuckOptions) (s : DuckState)
    (hplat : env.platform = "darwin") (hbin : env.binaryExists = true)
    (hinactive : s.isActive = false) (hfail : outcome ≠ NativeOutcome.confirmed) :
    (startDucking env outcome opts s).1 = true
    ∧ (startDucking env outcome opts s).2.isActive = true
    ∧ (startDucking env outcome opts s).2.fallbackMode = true
    ∧ (env.musicProbe = PlayerProbe.playingPauseOk →
        (startDucking env outcome opts s).2.savedMusic = some "was_playing")
    ∧ (env.spotifyProbe = PlayerProbe.playingPauseOk →
        (startDucking env outcome opts s).2.savedSpotify = some "was_playing")
    ∧ (getStatus env (startDucking env outcome opts s).2).1
        = [("isActive", true), ("fallbackMode", true),
           ("nativeAvailable", isNativeDuckingAvailable env)] := by
  cases outcome with
  | confirmed => exact absurd rfl hfail
  | timeout =>
      refine ⟨?_, ?_, ?_, ?_, ?_, ?_⟩ <;>
        simp [startDucking, startNativeDucking, startAppleScriptDucking,
          getStatus, hplat, hbin, hinactive] <;>
        (intro h; simp [h, pauseMusicApp])
  | spawnError =>
      refine ⟨?_, ?_, ?_, ?_, ?_, ?_⟩ <;>
        simp [startDucking, startNativeDucking, startAppleScriptDucking,
          getStatus, hplat, hbin, hinactive] <;>
        (intro h; simp [h, pauseMusicApp])
  | exitedBeforeConfirm =>
      refine ⟨?_, ?_, ?_, ?_, ?_, ?_⟩ <;>
        simp [startDucking, startNativeDucking, startAppleScriptDucking,
          getStatus, hplat, hbin, hinactive] <;>
        (intro h; simp [h, pauseMusicApp])

/-- C5 (witness): the fallback theorem applied with a 3000 ms-timeout outcome
on macOS, binary present, Music playing with a successful pause, from the
constructor state. -/
theorem c5_native_failure_falls_back_witness :
    ((⟨"darwin", true, PlayerProbe.playingPauseOk, PlayerProbe.notPlaying⟩ :
        DuckEnv).platform = "darwin"
      ∧ (⟨"darwin", true, PlayerProbe.playingPauseOk, PlayerProbe.notPlaying⟩ :
        DuckEnv).binaryExists = true
      ∧ initDuckState.isActive = false
      ∧ NativeOutcome.timeout ≠ NativeOutcome.confirmed)
    ∧ (startDucking ⟨"darwin", true, PlayerProbe.playingPauseOk, PlayerProbe.notPlaying⟩
        NativeOutcome.timeout ⟨none, none⟩ initDuckState).1 = true :=
  ⟨by decide,
    (c5_native_failure_falls_back
      ⟨"darwin", true, PlayerProbe.playingPauseOk, PlayerProbe.notPlaying⟩
      NativeOutcome.timeout ⟨none, none⟩ initDuckState
      rfl rfl rfl (by decide)).1⟩

/-- C6 (counterexample): the object returned by `getStatus()` does not have
the field set {isActive, mode, nativeAvailable} claimed: its middle field is
named `fallbackMode`, not `mode`. -/
theorem c6_getstatus_fields_counterexample :
    ((getStatus ⟨"darwin", true, PlayerProbe.notPlaying, PlayerProbe.notPlaying⟩
        initDuckState).1).map Prod.fst
      ≠ ["isActive", "mode", "nativeAvailable"] := by
  decide

/-- C6 (amended): `getStatus()` returns an object with exactly the fields
{isActive, fallbackMode, nativeAvailable} — the mode is exposed as the
boolean `fallbackMode`, not as a field named `mode` — and it is a pure read:
the manager state is returned unchanged. -/
theorem c6_getstatus_fields_and_purity (env : DuckEnv) (s : DuckState) :
    ((getStatus env s).1).map Prod.fst = ["isActive", "fallbackMode", "nativeAvailable"]
    ∧ (getStatus env s).2 = s :=
  ⟨rfl, rfl⟩

/-- C7: stopping fallback-mode ducking sends a resume command to a player
exactly when that player's pausedPlayers entry was recorded by this subsystem
(`savedVolumes[key] === "was_playing"`), and resets the state to inactive
with fallback mode cleared whatever the resume-script errors were. -/
theorem c7_stop_fallback_resumes_only_recorded (s : DuckState)
    (musicErr spotifyErr : Bool)
    (hact : s.isActive = true) (hfb : s.fallbackMode = true) :
    ((stopDucking musicErr spotifyErr s).1.musicResume = true
      ↔ s.savedMusic = some "was_playing")
    ∧ ((stopDucking musicErr spotifyErr s).1.spotifyResume = true
      ↔ s.savedSpotify = some "was_playing")
    ∧ (stopDucking musicErr spotifyErr s).2.isActive = false
    ∧ (stopDucking musicErr spotifyErr s).2.fallbackMode = false := by
  refine ⟨?_, ?_, ?_, ?_⟩ <;>
    simp [stopDucking, resumeMusicApp, hact, hfb] <;>
    (by_cases h : s.savedMusic = some "was_playing" <;>
      by_cases h2 : s.savedSpotify = some "was_playing" <;> simp [h, h2])

/-- An active fallback-mode state where only Music was recorded as paused. -/
def c7PausedState : DuckState :=
  { initDuckState with isActive := true, fallbackMode := true,
                       savedMusic := some "was_playing" }

/-- C7 (witness): stopping from an active fallback state where only Music was
recorded as paused, with the Spotify resume script erroring. -/
theorem c7_stop_fallback_witness :
    (c7PausedState.isActive = true ∧ c7PausedState.fallbackMode = true)
    ∧ ((stopDucking false true c7PausedState).1.musicResume = true
        ↔ c7PausedState.savedMusic = some "was_playing") :=
  ⟨by decide,
    (c7_stop_fallback_resumes_only_recorded c7PausedState false true rfl rfl).1⟩

/-- C8: calling `stopDucking` while inactive is a side-effect-free no-op — no
resume commands, no kill signal, state returned unchanged — and hence
idempotent: a second call returns the very same result. -/
theorem c8_stop_inactive_noop (s : DuckState) (musicErr spotifyErr : Bool)
    (hinactive : s.isActive = false) :
    stopDucking musicErr spotifyErr s = (⟨false, false, false⟩, s)
    ∧ stopDucking musicErr spotifyErr (stopDucking musicErr spotifyErr s).2
        = stopDucking musicErr spotifyErr s := by
  have h1 : stopDucking musicErr spotifyErr s = (⟨false, false, false⟩, s) := by
    simp [stopDucking, hinactive]
  exact ⟨h1, by rw [h1]; exact h1⟩

/-- C8 (witness): the inactive no-op theorem applied at the constructor
state. -/
theorem c8_stop_inactive_noop_witness :
    initDuckState.isActive = false
    ∧ stopDucking true true initDuckState = (⟨false, false, false⟩, initDuckState) :=
  ⟨rfl, (c8_stop_inactive_noop initDuckState true true rfl).1⟩

/-- C9: off macOS, `startDucking` from the inactive state returns failure and
leaves the state entirely unchanged: the native path is skipped and the
AppleScript fallback refuses to run on a non-darwin platform. -/
theorem c9_non_darwin_fails (env : DuckEnv) (outcome : NativeOutcome)
    (opts : DuckOptions) (s : DuckState)
    (hplat : env.platform ≠ "darwin") (hinactive : s.isActive = false) :
    startDucking env outcome opts s = (false, s) := by
  simp [startDucking, startAppleScriptDucking, hplat, hinactive]

/-- C9 (witness): the non-macOS theorem applied on win32 from the constructor
state. -/
theorem c9_non_darwin_fails_witness :
    ((⟨"win32", false, PlayerProbe.notRunning, PlayerProbe.notRunning⟩ :
        DuckEnv).platform ≠ "darwin"
      ∧ initDuckState.isActive = false)
    ∧ startDucking ⟨"win32", false, PlayerProbe.notRunning, PlayerProbe.notRunning⟩
        NativeOutcome.spawnError ⟨none, none⟩ initDuckState
        = (false, initDuckState) :=
  ⟨by decide,
    c9_non_darwin_fails
      ⟨"win32", false, PlayerProbe.notRunning, PlayerProbe.notRunning⟩
      NativeOutcome.spawnError ⟨none, none⟩ initDuckState (by decide) rfl⟩

/-- A per-player probe/pause run that errored: either the check script failed
or the player was playing and the pause command failed. -/
def probeErrored (p : PlayerProbe) : Prop :=
  p = PlayerProbe.checkError ∨ p = PlayerProbe.playingPauseErr

/-- C10: on macOS, fallback ducking reports success even when every
per-player probe or pause command errors: `pauseMusicApp` resolves `false`
(leaving the saved entry untouched) rather than rejecting, so
`startAppleScriptDucking` returns `true` with `isActive` set in every such
run. -/
theorem c10_fallback_success_despite_errors (env : DuckEnv) (s : DuckState)
    (hplat : env.platform = "darwin")
    (hm : probeErrored env.musicProbe) (hsp : probeErrored env.spotifyProbe) :
    pauseMusicApp env.musicProbe s.savedMusic = (false, s.savedMusic)
    ∧ pauseMusicApp env.spotifyProbe s.savedSpotify = (false, s.savedSpotify)
    ∧ (startAppleScriptDucking env s).1 = true
    ∧ (startAppleScriptDucking env s).2.isActive = true := by
  rcases hm with hm | hm <;> rcases hsp with hsp | hsp <;>
    simp [startAppleScriptDucking, pauseMusicApp, hplat, hm, hsp]

/-- C10 (witness): the all-errors theorem applied with a failing Music check
script and a failing Spotify pause command, from the constructor state. -/
theorem c10_fallback_success_witness :
    ((⟨"darwin", false, PlayerProbe.checkError, PlayerProbe.playingPauseErr⟩ :
        DuckEnv).platform = "darwin"
      ∧ probeErrored PlayerProbe.checkError
      ∧ probeErrored PlayerProbe.playingPauseErr)
    ∧ (startAppleScriptDucking
        ⟨"darwin", false, PlayerProbe.checkError, PlayerProbe.playingPauseErr⟩
        initDuckState).1 = true :=
  ⟨⟨rfl, Or.inl rfl, Or.inr rfl⟩,
    (c10_fallback_success_despite_errors
      ⟨"darwin", false, PlayerProbe.checkError, PlayerProbe.playingPauseErr⟩
      initDuckState rfl (Or.inl rfl) (Or.inr rfl)).2.2.1⟩

end OpenWhispr
